import Mathlib

/-!
# Verification of the `salesforce` Go package

A shallow embedding of `src/salesforce/token.go`, `src/salesforce/request.go`
and `src/salesforce/models.go` from `ellogroup/ello-golang-salesforce`.

Conventions of the embedding:
* Go's `error` values become the inductive `Err`; `fmt.Errorf("...: %w", e)`
  becomes `Err.wrap "..." e`, and the struct error type `QueryError` becomes
  the `Err.queryError` constructor carrying the same two fields.
* A Go function returning `(T, error)` becomes `Except Err T` (or an explicit
  pair when the Go code returns a meaningful value alongside the error, as
  `Patch` does with its status code).
* Calls into external libraries (AWS secrets manager, `encoding/json`
  unmarshalling of the credential blob, `encoding/base64`, PEM/RSA parsing,
  JWT signing, `uuid.New`, `time.Now`, the `HttpClient` interface and
  `net/url`/`net/http` request construction) are oracles supplied in
  environment records; the code under verification is translated statement by
  statement around them.
* `json.Unmarshal(body, &ptr)` where `ptr` is a pointer-to-pointer is modelled
  by `JsonDoc`/`unmarshalPtr`: the body is either the JSON literal `null`
  (which sets the pointer to `nil`, i.e. `none`), a well-formed document for
  the target type (pointer set to `some value`), or malformed (an error).
* Functions record the list of requests handed to the HTTP client's `Do`
  method, so "zero network calls" is the sent-request list being `[]`.
* A Go runtime panic (nil-pointer dereference) is the `POut.panicked`
  constructor; it is distinct from an `error` return.
* Go `time.Duration` is an `Int` count of nanoseconds, exactly as in Go's
  `time` package.
-/

set_option autoImplicit false

deriving instance DecidableEq for Except

namespace Salesforce

/-- Go `error` values, as built by this package: plain messages from
`fmt.Errorf`/`errors.New`, wrapped causes from `fmt.Errorf("...: %w", err)`,
and the `QueryError` struct of `request.go` with its `queryUsed` and
`statusCode` fields. -/
inductive Err where
  | msg (s : String)
  | wrap (s : String) (cause : Err)
  | queryError (queryUsed : String) (statusCode : Int)
  deriving DecidableEq, Repr

/-- An outbound `http.Request`: method, fully-assembled URL (path and encoded
query), the `http.Header` map (name to list of values, as assigned literally
in the source), and the optional body bytes. -/
structure Request where
  method : String
  url : String
  headers : List (String × List String)
  body : Option String
  deriving DecidableEq, Repr

/-- An `http.Response` as far as this package reads it: the status code and a
body, whose type depends on what the caller unmarshals it into. -/
structure Response (β : Type) where
  statusCode : Int
  body : β
  deriving DecidableEq, Repr

/-- The JSON document carried by a response body, relative to the type `α` the
caller decodes into: the literal `null`, a well-formed document for `α`, or
malformed JSON. -/
inductive JsonDoc (α : Type) where
  | null
  | value (a : α)
  | malformed
  deriving DecidableEq, Repr

/-- Semantics of `json.Unmarshal(body, &ptr)` for `ptr : **T` (the package
always unmarshals into a pointer variable): `null` sets the pointer to `nil`
(`none`) without error, a well-formed document sets it to the decoded value,
malformed input returns an error. -/
def unmarshalPtr {α : Type} : JsonDoc α → Except Err (Option α)
  | .null => .ok none
  | .value a => .ok (some a)
  | .malformed => .error (.msg "json unmarshal error")

/-- `models.go`: the generic Salesforce query response shape. -/
structure QueryResponse (E : Type) where
  totalSize : Int
  done : Bool
  records : List E
  deriving DecidableEq, Repr

/-- `token.go`: the token endpoint response, `{access_token}`. -/
structure TokenResponse where
  token : String
  deriving DecidableEq, Repr

/-! ## `net/url` query escaping

`url.QueryEscape` from the Go standard library, byte for byte: ASCII
alphanumerics and `-`, `_`, `.`, `~` pass through, a space becomes `+`, every
other byte of the UTF-8 encoding becomes `%XX` with uppercase hex. -/

/-- UTF-8 encoding of one code point, as a list of byte values (Go strings
are UTF-8 byte sequences; Lean `Char` excludes surrogates, as Go's encoder
replaces them, so the four standard ranges cover every case). -/
def utf8EncodeCharNat (n : Nat) : List Nat :=
  if n < 0x80 then [n]
  else if n < 0x800 then [0xC0 + n / 64, 0x80 + n % 64]
  else if n < 0x10000 then
    [0xE0 + n / 4096, 0x80 + (n / 64) % 64, 0x80 + n % 64]
  else
    [0xF0 + n / 262144, 0x80 + (n / 4096) % 64, 0x80 + (n / 64) % 64,
     0x80 + n % 64]

/-- The bytes of a string's UTF-8 encoding. -/
def utf8Bytes (s : String) : List Nat :=
  (s.data.map (fun c => utf8EncodeCharNat c.toNat)).flatten

/-- Bytes `url.QueryEscape` leaves unescaped: `A-Z`, `a-z`, `0-9`, `-`, `_`,
`.`, `~`. -/
def isUnreservedByte (b : Nat) : Bool :=
  (65 ≤ b && b ≤ 90) || (97 ≤ b && b ≤ 122) || (48 ≤ b && b ≤ 57) ||
  b == 45 || b == 95 || b == 46 || b == 126

/-- Uppercase hex digit for a nibble, as `net/url` emits. -/
def hexDigitChar (n : Nat) : Char :=
  if n < 10 then Char.ofNat (48 + n) else Char.ofNat (55 + n)

/-- Escape one byte the way `url.QueryEscape` does. -/
def escapeByte (b : Nat) : String :=
  if b == 32 then "+"
  else if isUnreservedByte b then String.singleton (Char.ofNat b)
  else "%" ++ String.singleton (hexDigitChar (b / 16)) ++
    String.singleton (hexDigitChar (b % 16))

/-- `url.QueryEscape`: escape each byte of the UTF-8 encoding. -/
def queryEscape (s : String) : String :=
  ((utf8Bytes s).map escapeByte).foldl (· ++ ·) ""

/-! ## `request.go` -/

/-- A `context.Context`, as far as this package looks at it (it never does):
whether the context has been cancelled. -/
structure Ctx where
  cancelled : Bool
  deriving DecidableEq, Repr

/-- Behaviour of the Go runtime pieces `request.go`/`token.go` call but ignore
the errors or internals of: whether `net/url` (and hence `http.NewRequest`)
accepts a URL string. -/
structure GoEnv where
  urlOK : String → Bool

/-- `request.go`'s `RequestHelper`, with its two interface fields
(`TokenGetter`, `HttpClient`) replaced by their observable behaviour: the
result of `tokenGetter.Get` per context, and the response of `client.Do` per
request. `β` is the body type of the responses this helper's client hands
back. -/
structure RequestHelper (β : Type) where
  tokenGet : Ctx → Except Err String
  doResp : Request → Except Err (Response β)
  baseUrl : String
  apiVersion : Int

/-- The URL `Query` formats:
`fmt.Sprintf("%s/services/data/v%d.0/query?q=%s", baseUrl, apiVersion, url.QueryEscape(q))`. -/
def queryUrl {β : Type} (h : RequestHelper β) (q : String) : String :=
  h.baseUrl ++ "/services/data/v" ++ toString h.apiVersion ++ ".0/query?q=" ++
    queryEscape q

/-- The request `Query` sends: GET to `queryUrl`, with the header map assigned
in the source (`Content-Type: application/json`,
`Authorization: Bearer {token}`), no body. -/
def queryRequest {β : Type} (h : RequestHelper β) (q token : String) : Request :=
  { method := "GET"
    url := queryUrl h q
    headers := [("Content-Type", ["application/json"]),
                ("Authorization", ["Bearer " ++ token])]
    body := none }

/-- `request.go`'s `Query[E]`. Returns the Go `(*QueryResponse[E], error)`
pair as `Except Err (Option (QueryResponse E))` (a `nil` pointer result is
`.ok none`), together with the list of requests passed to the client's `Do`.
Statement order follows the source: build the request, call
`tokenGetter.Get`, send, reject any status other than 200 with a
`QueryError`, then unmarshal the body into a `*QueryResponse[E]` pointer. -/
def Query {E : Type} (env : GoEnv) (ctx : Ctx)
    (h : RequestHelper (JsonDoc (QueryResponse E))) (q : String) :
    Except Err (Option (QueryResponse E)) × List Request :=
  let reqUrl := queryUrl h q
  if env.urlOK reqUrl = false then
    (.error (.wrap "unable to create salesforce request" (.msg "net/url parse error")), [])
  else
    match h.tokenGet ctx with
    | .error e => (.error (.wrap "unable to create salesforce auth token" e), [])
    | .ok token =>
      let req := queryRequest h q token
      match h.doResp req with
      | .error e => (.error (.wrap "unable to send request to salesforce" e), [req])
      | .ok resp =>
        if resp.statusCode ≠ 200 then
          (.error (.queryError q resp.statusCode), [req])
        else
          match unmarshalPtr resp.body with
          | .error e => (.error e, [req])
          | .ok parsed => (.ok parsed, [req])

/-- The URL `Patch` formats:
`fmt.Sprintf("%s/services/data/v%d.0/sobjects/%s/%s", baseUrl, apiVersion, name, id)`. -/
def patchUrl {β : Type} (h : RequestHelper β) (name id : String) : String :=
  h.baseUrl ++ "/services/data/v" ++ toString h.apiVersion ++ ".0/sobjects/" ++
    name ++ "/" ++ id

/-- The request `Patch` sends: PATCH to `patchUrl` with the JSON-encoded
record as body and the header map assigned in the source. -/
def patchRequest {β : Type} (h : RequestHelper β) (name id token bodyStr : String) :
    Request :=
  { method := "PATCH"
    url := patchUrl h name id
    headers := [("Content-Type", ["application/json"]),
                ("Authorization", ["Bearer " ++ token])]
    body := some bodyStr }

/-- `request.go`'s `Patch`. `marshal` is `json.Marshal` specialised to the
record type `ρ`. Returns the Go `(int, error)` pair (the error as
`Option Err`, `none` for `nil`) together with the requests passed to `Do`.
Statement order follows the source: marshal the record, build the request,
call `tokenGetter.Get`, send, then return the raw status code with an error
exactly when the status falls outside 200–299. -/
def Patch {β ρ : Type} (env : GoEnv) (marshal : ρ → Except Err String)
    (ctx : Ctx) (h : RequestHelper β) (name id : String) (record : ρ) :
    (Int × Option Err) × List Request :=
  match marshal record with
  | .error e => ((0, some (.wrap "unable to create salesforce payload" e)), [])
  | .ok bodyStr =>
    if env.urlOK (patchUrl h name id) = false then
      ((0, some (.wrap "unable to create salesforce request" (.msg "net/url parse error"))), [])
    else
      match h.tokenGet ctx with
      | .error e => ((0, some (.wrap "unable to create salesforce auth token" e)), [])
      | .ok token =>
        let req := patchRequest h name id token bodyStr
        match h.doResp req with
        | .error e => ((0, some (.wrap "unable to send request to salesforce" e)), [req])
        | .ok resp =>
          if resp.statusCode < 200 ∨ resp.statusCode > 299 then
            ((resp.statusCode,
              some (.msg ("unexpected salesforce response code: " ++ toString resp.statusCode))), [req])
          else
            ((resp.statusCode, none), [req])

/-! ## `token.go` -/

/-- Go `time.Duration` units in nanoseconds, as defined in Go's `time`
package. -/
def Minute : Int := 60 * 1000000000

/-- Go `time.Hour` in nanoseconds. -/
def Hour : Int := 60 * Minute

/-- `const tokenTtl = 1 * time.Hour`. -/
def tokenTtl : Int := 1 * Hour

/-- `const tokenCacheTtl = 58 * time.Minute`. -/
def tokenCacheTtl : Int := 58 * Minute

/-- `token.go`'s `TokenParams`, with the two interface/pointer dependencies
reduced to their presence (what `validator`'s `required` tag checks: non-nil),
and the string key to its value (`required` on a string: non-empty). -/
structure TokenParams where
  hasHttpClient : Bool
  hasSMClient : Bool
  smKey : String
  hasBackoff : Bool
  deriving DecidableEq, Repr

/-- `token.go`'s `tokenFetcherCfg`: the credential blob fields plus the
decoded private key bytes (unexported, filled in by `NewTokenFetcher`). -/
structure TokenFetcherCfg where
  baseUrl : String
  hostname : String
  username : String
  clientId : String
  clientSecret : String
  privateKeyBase64 : String
  privateKey : List UInt8
  deriving DecidableEq, Repr

/-- External collaborators of `NewTokenFetcher`: the secrets-manager fetch,
`json.Unmarshal` into `tokenFetcherCfg` (which never touches the unexported
`privateKey` field), and `base64.StdEncoding.DecodeString`. -/
structure SecretsEnv where
  getSecretValue : String → Except Err String
  jsonParseCfg : String → Except Err TokenFetcherCfg
  b64Decode : String → Except Err (List UInt8)

/-- `validateTokenParams`: `validator.New().Struct(p)` with the `required`
tags on `HttpClient`, `SMClient` and `SMKey`. -/
def validateTokenParams (p : TokenParams) : Option Err :=
  if p.hasHttpClient && p.hasSMClient && p.smKey ≠ "" then none
  else some (.msg "validation error")

/-- `token.go`'s `TokenFetcher`: the parsed configuration plus whether the
default exponential backoff was installed (`p.Backoff == nil`). The
`HttpClient` interface value lives in the fetch environment. -/
structure TokenFetcher where
  cfg : TokenFetcherCfg
  backoffDefaulted : Bool
  deriving DecidableEq, Repr

/-- `NewTokenFetcher`: validate the params, fetch the secret blob, parse it as
JSON, base64-decode the `privateKeyBase64` field into `cfg.privateKey`, pick
the backoff, and return the fetcher. No step parses the decoded bytes as a
PEM/RSA key. -/
def NewTokenFetcher (env : SecretsEnv) (p : TokenParams) :
    Except Err TokenFetcher :=
  match validateTokenParams p with
  | some e => .error e
  | none =>
    match env.getSecretValue p.smKey with
    | .error e => .error (.wrap "unable to fetch credentials from secrets manager" e)
    | .ok secret =>
      match env.jsonParseCfg secret with
      | .error e => .error (.wrap "unable to parse credentials from secrets manager" e)
      | .ok cfg =>
        match env.b64Decode cfg.privateKeyBase64 with
        | .error e => .error (.wrap "unable to decode private key" e)
        | .ok key =>
          .ok { cfg := { cfg with privateKey := key }
                backoffDefaulted := !p.hasBackoff }

/-- The claim set `generateJwt` signs: `jwt.RegisteredClaims` fields
{issuer, subject, expiry, id} plus the extra `aud` field. `expiresAt` is a
nanosecond timestamp. -/
structure JwtClaims where
  issuer : String
  subject : String
  aud : String
  expiresAt : Int
  jti : String
  deriving DecidableEq, Repr

/-- Result of a Go call that can also panic: a value, an `error` return (the
accompanying string result is the zero value `""`), or a runtime panic. -/
inductive POut (α : Type) where
  | ok (a : α)
  | err (e : Err)
  | panicked (s : String)
  deriving DecidableEq, Repr

/-- External collaborators of `TokenFetcher.Fetch`, indexed by the retry
attempt `n` where the call site runs once per attempt:
`jwt.ParseRSAPrivateKeyFromPEM` (success or failure on the key bytes),
`SignedString` on the built claims, `time.Now` at attempt `n`, `uuid.New` at
attempt `n`, and the `HttpClient`'s `Do` during attempt `n`. -/
structure FetchEnv where
  pemParse : List UInt8 → Except Err Unit
  sign : JwtClaims → Except Err String
  now : Nat → Int
  uuid : Nat → String
  httpDo : Nat → Request → Except Err (Response (JsonDoc TokenResponse))

/-- The claims `generateJwt` builds on attempt `n`: issuer = client id,
subject = username, audience = hostname, expiry =
`time.Now().Local().Add(tokenTtl)` (the instant `now + 1h`; `Local` only
changes the display zone), id = a fresh `uuid.New()`. -/
def jwtClaimsAt (env : FetchEnv) (tf : TokenFetcher) (n : Nat) : JwtClaims :=
  { issuer := tf.cfg.clientId
    subject := tf.cfg.username
    aud := tf.cfg.hostname
    expiresAt := env.now n + tokenTtl
    jti := env.uuid n }

/-- `generateJwt` on attempt `n`: parse the stored private key bytes as a
PEM RSA key (wrapping a failure as `error parsing private key`), build the
claims, sign (wrapping a failure as `error generating salesforce token`). -/
def generateJwt (env : FetchEnv) (tf : TokenFetcher) (n : Nat) :
    Except Err String :=
  match env.pemParse tf.cfg.privateKey with
  | .error e => .error (.wrap "error parsing private key" e)
  | .ok _ =>
    match env.sign (jwtClaimsAt env tf n) with
    | .error e => .error (.wrap "error generating salesforce token" e)
    | .ok tok => .ok tok

/-- The URL `obtainToken` assembles: `{baseUrl}/services/oauth2/token` with
the form values `assertion` and `grant_type` encoded into the query string
(`url.Values.Encode` sorts keys and query-escapes values). -/
def obtainTokenUrl (tf : TokenFetcher) (assertion : String) : String :=
  tf.cfg.baseUrl ++ "/services/oauth2/token?assertion=" ++ queryEscape assertion ++
    "&grant_type=" ++ queryEscape "urn:ietf:params:oauth:grant-type:jwt-bearer"

/-- The request `obtainToken` sends: POST, form-encoded content type, no
body. -/
def obtainTokenRequest (tf : TokenFetcher) (assertion : String) : Request :=
  { method := "POST"
    url := obtainTokenUrl tf assertion
    headers := [("Content-Type", ["application/x-www-form-urlencoded"])]
    body := none }

/-- The URL `introspect` assembles: `{baseUrl}/services/oauth2/introspect`
with the four form values in `url.Values.Encode`'s sorted key order. -/
def introspectUrl (tf : TokenFetcher) (token : String) : String :=
  tf.cfg.baseUrl ++ "/services/oauth2/introspect?client_id=" ++
    queryEscape tf.cfg.clientId ++ "&client_secret=" ++
    queryEscape tf.cfg.clientSecret ++ "&token=" ++ queryEscape token ++
    "&token_type_hint=access_token"

/-- The request `introspect` sends: POST, headers left at the empty map
`http.NewRequest` creates, no body. -/
def introspectRequest (tf : TokenFetcher) (token : String) : Request :=
  { method := "POST"
    url := introspectUrl tf token
    headers := []
    body := none }

/-- `introspect` during attempt `n`: build the request (the source discards
the `url.ParseRequestURI` error, so an unparsable base URL leaves `uri` nil
and the next line panics), send it, fail on a transport error or any status
outside 200–299, otherwise return the token unchanged. An `err` outcome is
Go's `("", err)` return. -/
def introspect (genv : GoEnv) (env : FetchEnv) (tf : TokenFetcher) (n : Nat)
    (token : String) : POut String :=
  if genv.urlOK (tf.cfg.baseUrl ++ "/services/oauth2/introspect") = false then
    .panicked "runtime error: invalid memory address or nil pointer dereference"
  else
    match env.httpDo n (introspectRequest tf token) with
    | .error e => .err e
    | .ok resp =>
      if resp.statusCode < 200 ∨ resp.statusCode > 299 then
        .err (.msg "failed Call to introspect token")
      else
        .ok token

/-- `obtainToken` during attempt `n`: build the request (again the URL-parse
error is discarded, so a bad base URL panics), send it, return a transport
error as-is, unmarshal the body into `var sfRes *tokenResponse`, then read
`sfRes.Token` — without a nil check and without looking at the status code —
and hand it to `introspect`. A body of JSON `null` leaves `sfRes` nil, so the
field read panics. -/
def obtainToken (genv : GoEnv) (env : FetchEnv) (tf : TokenFetcher) (n : Nat)
    (assertion : String) : POut String :=
  if genv.urlOK (tf.cfg.baseUrl ++ "/services/oauth2/token") = false then
    .panicked "runtime error: invalid memory address or nil pointer dereference"
  else
    match env.httpDo n (obtainTokenRequest tf assertion) with
    | .error e => .err e
    | .ok resp =>
      match unmarshalPtr resp.body with
      | .error e => .err e
      | .ok none =>
        .panicked "runtime error: invalid memory address or nil pointer dereference"
      | .ok (some sfRes) => introspect genv env tf n sfRes.token

/-- One attempt of the retry unit inside `Fetch`: `generateJwt` then
`obtainToken` (which runs `introspect`). -/
def fetchAttempt (genv : GoEnv) (env : FetchEnv) (tf : TokenFetcher) (n : Nat) :
    POut String :=
  match generateJwt env tf n with
  | .error e => .err e
  | .ok assertion => obtainToken genv env tf n assertion

/-- `backoff.RetryWithData`: run the operation; on success or panic stop; on
an error consult the backoff policy — modelled as the list of remaining
sleep delays, `[]` meaning `backoff.Stop` — and either give up with the last
error or sleep and run the next attempt. -/
def retryWithData (op : Nat → POut String) : List Int → Nat → POut String
  | delays, n =>
    match op n with
    | .ok a => .ok a
    | .panicked s => .panicked s
    | .err e =>
      match delays with
      | [] => .err e
      | _ :: rest => retryWithData op rest (n + 1)

/-- `TokenFetcher.Fetch`: the context parameter is declared `_` in the source
and never consulted; the whole sign–exchange–introspect unit runs under
`backoff.RetryWithData` with the fetcher's backoff policy. -/
def Fetch (_ctx : Ctx) (genv : GoEnv) (env : FetchEnv) (tf : TokenFetcher)
    (delays : List Int) : POut String :=
  retryWithData (fetchAttempt genv env tf) delays 0

/-- `token.go`'s `TokenCache`: the generic keyless cache from the external
`ello-golang-cache` library, recorded here by the arguments `NewTokenCache`
wires into it — the fetcher as the source and the refresh interval. -/
structure TokenCache where
  refreshInterval : Int
  fetcher : TokenFetcher
  deriving DecidableEq, Repr

/-- `NewTokenCache`: build the fetcher, then wrap it in
`cache.NewKeylessRecordCacheAsync` with `tokenCacheTtl` as the refresh
interval. -/
def NewTokenCache (env : SecretsEnv) (p : TokenParams) : Except Err TokenCache :=
  match NewTokenFetcher env p with
  | .error e => .error e
  | .ok tf => .ok { refreshInterval := tokenCacheTtl, fetcher := tf }

/-! ## Concrete collaborators used by witnesses and counterexamples -/

/-- A `GoEnv` whose URL parser accepts everything (the behaviour of `net/url`
on the well-formed URLs of the tests). -/
def goEnvOK : GoEnv := { urlOK := fun _ => true }

/-- A helper whose token source fails: `newTokenGetterMock("", errors.New("token boom"))`. -/
def helperTokenErr : RequestHelper (JsonDoc (QueryResponse Unit)) :=
  { tokenGet := fun _ => .error (.msg "token boom")
    doResp := fun _ => .ok { statusCode := 200, body := .null }
    baseUrl := "baseUrl", apiVersion := 55 }

/-- A Patch-side helper whose token source fails the same way. -/
def patchHelperTokenErr : RequestHelper Unit :=
  { tokenGet := fun _ => .error (.msg "token boom")
    doResp := fun _ => .ok { statusCode := 204, body := () }
    baseUrl := "baseUrl", apiVersion := 55 }

/-- `json.Marshal` on the unit record: a constant document. -/
def marshalUnit : Unit → Except Err String := fun _ => .ok "\x7b\x7d"

/-- A helper answering a query with status 200 and a well-formed body,
as in the test `successful query request`. -/
def helperQueryOK : RequestHelper (JsonDoc (QueryResponse Unit)) :=
  { tokenGet := fun _ => .ok "token"
    doResp := fun _ => .ok { statusCode := 200, body := .value { totalSize := 1, done := true, records := [] } }
    baseUrl := "baseUrl", apiVersion := 55 }

/-- A helper answering a query with status 200 and the body `null`. -/
def helperQueryNull : RequestHelper (JsonDoc (QueryResponse Unit)) :=
  { tokenGet := fun _ => .ok "token"
    doResp := fun _ => .ok { statusCode := 200, body := .null }
    baseUrl := "baseUrl", apiVersion := 55 }

/-- A Patch-side helper answering 204, as in the spec's Patch scenario. -/
def patchHelper204 : RequestHelper Unit :=
  { tokenGet := fun _ => .ok "token"
    doResp := fun _ => .ok { statusCode := 204, body := () }
    baseUrl := "baseUrl", apiVersion := 55 }

/-- A credential source whose blob parses fine and whose `privateKeyBase64`
field decodes under standard base64 to the bytes of `not` — bytes that are
not a PEM document. -/
def secretsEnvBadPem : SecretsEnv :=
  { getSecretValue := fun _ => .ok "secret-json"
    jsonParseCfg := fun _ => .ok
      { baseUrl := "baseUrl", hostname := "host", username := "user"
        clientId := "client", clientSecret := "secret"
        privateKeyBase64 := "bm90", privateKey := [] }
    b64Decode := fun _ => .ok [110, 111, 116] }

/-- Fully-populated constructor params. -/
def paramsOK : TokenParams :=
  { hasHttpClient := true, hasSMClient := true
    smKey := "SALESFORCE_AUTH_CREDS", hasBackoff := false }

/-- The fetcher `NewTokenFetcher` builds from `secretsEnvBadPem`/`paramsOK`. -/
def fetcherBadPem : TokenFetcher :=
  { cfg := { baseUrl := "baseUrl", hostname := "host", username := "user"
             clientId := "client", clientSecret := "secret"
             privateKeyBase64 := "bm90", privateKey := [110, 111, 116] }
    backoffDefaulted := true }

/-- A fetch environment whose PEM parser rejects the key — the behaviour of
`jwt.ParseRSAPrivateKeyFromPEM` on bytes that are not a PEM block — and whose
other collaborators succeed. -/
def fetchEnvBadPem : FetchEnv :=
  { pemParse := fun _ => .error (.msg "invalid key")
    sign := fun _ => .ok "signed-jwt"
    now := fun k => 1700000000000000000 + k
    uuid := fun k => toString k
    httpDo := fun _ _ => .error (.msg "transport down") }

/-- A fetch environment where everything local succeeds and the token
endpoint answers 200 with the JSON body `null`. -/
def fetchEnvNullBody : FetchEnv :=
  { pemParse := fun _ => .ok ()
    sign := fun _ => .ok "signed-jwt"
    now := fun _ => 0
    uuid := fun _ => "jti"
    httpDo := fun _ _ => .ok { statusCode := 200, body := .null } }

/-- A fetch environment whose introspect call answers 204 (a 2xx). -/
def fetchEnvIntrospect204 : FetchEnv :=
  { pemParse := fun _ => .ok ()
    sign := fun _ => .ok "signed-jwt"
    now := fun _ => 0
    uuid := fun _ => "jti"
    httpDo := fun _ _ => .ok { statusCode := 204, body := .null } }

/-! ## Claims about `request.go` -/

/-- C3: for a query `q` whose request is created and whose token arrives, the
request `Query` sends is a GET to
`{baseUrl}/services/data/v{version}.0/query?q={url-encoded q}` carrying
`Authorization: Bearer {token}`; it is the only request handed to `Do`; a
response status other than 200 yields a `QueryError` storing that status and
the original query text (with a nil result, here the `error` branch of the
`Except`); a 200 response whose body is a well-formed JSON document for
`QueryResponse` yields that decoded value and no error. -/
theorem query_spec {E : Type} (genv : GoEnv) (ctx : Ctx)
    (h : RequestHelper (JsonDoc (QueryResponse E))) (q tok : String)
    (resp : Response (JsonDoc (QueryResponse E)))
    (hurl : genv.urlOK (queryUrl h q) = true)
    (htok : h.tokenGet ctx = .ok tok)
    (hdo : h.doResp (queryRequest h q tok) = .ok resp) :
    (queryRequest h q tok).method = "GET"
    ∧ (queryRequest h q tok).url =
        h.baseUrl ++ "/services/data/v" ++ toString h.apiVersion ++
          ".0/query?q=" ++ queryEscape q
    ∧ (queryRequest h q tok).headers =
        [("Content-Type", ["application/json"]),
         ("Authorization", ["Bearer " ++ tok])]
    ∧ (Query genv ctx h q).2 = [queryRequest h q tok]
    ∧ (resp.statusCode ≠ 200 →
        (Query genv ctx h q).1 = .error (.queryError q resp.statusCode))
    ∧ (∀ v : QueryResponse E, resp.statusCode = 200 → resp.body = .value v →
        (Query genv ctx h q).1 = .ok (some v)) := by
  refine ⟨rfl, rfl, rfl, ?_, ?_, ?_⟩
  · simp only [Query, hurl, htok, hdo]
    rcases hum : unmarshalPtr resp.body with e | parsed <;>
      by_cases h200 : resp.statusCode = 200 <;>
        simp [hum, h200]
  · intro hne
    simp [Query, hurl, htok, hdo, hne]
  · intro v h200 hbody
    simp [Query, hurl, htok, hdo, h200, hbody, unmarshalPtr]

/-- C3 witness: the theorem at the concrete helper of the test
`successful query request`. -/
theorem query_spec_witness :
    (Query goEnvOK { cancelled := false } helperQueryOK "SELECT Id FROM Account").1
      = .ok (some { totalSize := 1, done := true, records := ([] : List Unit) }) :=
  (query_spec goEnvOK { cancelled := false } helperQueryOK
      "SELECT Id FROM Account" "token"
      { statusCode := 200, body := .value { totalSize := 1, done := true, records := [] } }
      rfl rfl rfl).2.2.2.2.2
    { totalSize := 1, done := true, records := [] } rfl rfl

/-- C10: a 200 response whose body is the JSON literal `null` makes `Query`
return a nil `*QueryResponse` (`none`) together with a nil error, after one
successful HTTP call — a caller checking only the error sees a successful
call with a nil result. -/
theorem query_null_body_nil_result :
    (Query goEnvOK { cancelled := false } helperQueryNull "q").1
      = .ok (none : Option (QueryResponse Unit))
    ∧ (Query goEnvOK { cancelled := false } helperQueryNull "q").2
      = [queryRequest helperQueryNull "q" "token"] := by
  decide

/-- C2 counterexample: with a token source failing with `token boom` (and a
well-formed URL), `Query` does not return that error unchanged — it returns
it wrapped in `unable to create salesforce auth token` — refuting the claim
as stated, though no request reaches `Do`. -/
theorem token_error_unchanged_counterexample :
    (Query goEnvOK { cancelled := false } helperTokenErr "q").1
      ≠ .error (.msg "token boom")
    ∧ (Query goEnvOK { cancelled := false } helperTokenErr "q").1
      = .error (.wrap "unable to create salesforce auth token" (.msg "token boom"))
    ∧ (Query goEnvOK { cancelled := false } helperTokenErr "q").2 = [] := by
  decide

/-- C2 amended: when the token source's `Get` fails (and the steps before it —
request creation for `Query`, marshalling and request creation for `Patch` —
succeed), both operations return immediately with an error wrapping the
token-source error, and hand zero requests to the HTTP client's `Do`. -/
theorem token_error_aborts_before_do {E ρ : Type} (genv : GoEnv) (ctx : Ctx)
    (hq : RequestHelper (JsonDoc (QueryResponse E))) (hp : RequestHelper Unit)
    (marshal : ρ → Except Err String) (q name id bodyStr : String)
    (record : ρ) (e : Err)
    (hque : hq.tokenGet ctx = .error e)
    (hpe : hp.tokenGet ctx = .error e)
    (hu1 : genv.urlOK (queryUrl hq q) = true)
    (hm : marshal record = .ok bodyStr)
    (hu2 : genv.urlOK (patchUrl hp name id) = true) :
    Query genv ctx hq q
      = (.error (.wrap "unable to create salesforce auth token" e), [])
    ∧ Patch genv marshal ctx hp name id record
      = ((0, some (.wrap "unable to create salesforce auth token" e)), []) := by
  constructor
  · simp [Query, hu1, hque]
  · simp [Patch, hm, hu2, hpe]

/-- C2 amended witness: the amended theorem at the concrete failing token
source. -/
theorem token_error_aborts_before_do_witness :
    Query goEnvOK { cancelled := false } helperTokenErr "q"
      = (.error (.wrap "unable to create salesforce auth token" (.msg "token boom")),
         ([] : List Request))
    ∧ Patch goEnvOK marshalUnit { cancelled := false } patchHelperTokenErr
        "name" "abc123" ()
      = ((0, some (.wrap "unable to create salesforce auth token" (.msg "token boom"))),
         ([] : List Request)) :=
  token_error_aborts_before_do goEnvOK { cancelled := false } helperTokenErr
    patchHelperTokenErr marshalUnit "q" "name" "abc123" "\x7b\x7d" () (.msg "token boom")
    rfl rfl rfl rfl rfl

/-- C6: once `Patch` receives a response, it returns the raw status code in
both cases: `(s, nil)` when `s` lies in 200–299 and `(s, non-nil error)`
otherwise. -/
theorem patch_status_spec {ρ : Type} (genv : GoEnv) (ctx : Ctx)
    (h : RequestHelper Unit) (marshal : ρ → Except Err String)
    (name id bodyStr tok : String) (record : ρ) (resp : Response Unit)
    (hm : marshal record = .ok bodyStr)
    (hu : genv.urlOK (patchUrl h name id) = true)
    (ht : h.tokenGet ctx = .ok tok)
    (hdo : h.doResp (patchRequest h name id tok bodyStr) = .ok resp) :
    ((200 ≤ resp.statusCode ∧ resp.statusCode ≤ 299) →
      (Patch genv marshal ctx h name id record).1 = (resp.statusCode, none))
    ∧ ((resp.statusCode < 200 ∨ 299 < resp.statusCode) →
      (Patch genv marshal ctx h name id record).1
        = (resp.statusCode,
           some (.msg ("unexpected salesforce response code: " ++
             toString resp.statusCode)))) := by
  constructor
  · intro hs
    simp only [Patch, hm, hu, ht, hdo]
    rw [if_neg (by simp : ¬(true = false))]
    rw [if_neg (by omega : ¬(resp.statusCode < 200 ∨ resp.statusCode > 299))]
  · intro hs
    simp only [Patch, hm, hu, ht, hdo]
    rw [if_neg (by simp : ¬(true = false))]
    rw [if_pos (by omega : resp.statusCode < 200 ∨ resp.statusCode > 299)]

/-- C6 witness: the spec's Patch scenario — a mock answering 204 gives
`(204, nil)`. -/
theorem patch_status_spec_witness :
    (Patch goEnvOK marshalUnit { cancelled := false } patchHelper204
      "name" "abc123" ()).1 = (204, none) :=
  (patch_status_spec goEnvOK { cancelled := false } patchHelper204 marshalUnit
      "name" "abc123" "\x7b\x7d" "token" () { statusCode := 204, body := () }
      rfl rfl rfl rfl).1 (by decide)

/-! ## Claims about `token.go` -/

/-- C1 counterexample: a credential payload whose fields parse as JSON and
whose `privateKeyBase64` decodes under standard base64 to bytes the PEM/RSA
parser rejects — yet `NewTokenFetcher` succeeds instead of failing with a
credential-decode error; the parse failure only surfaces later, inside
`generateJwt` during `Fetch`. -/
theorem newTokenFetcher_pem_counterexample :
    fetchEnvBadPem.pemParse fetcherBadPem.cfg.privateKey = .error (.msg "invalid key")
    ∧ NewTokenFetcher secretsEnvBadPem paramsOK = .ok fetcherBadPem
    ∧ generateJwt fetchEnvBadPem fetcherBadPem 0
      = .error (.wrap "error parsing private key" (.msg "invalid key")) := by
  decide

/-- C1 amended: once validation, the secret fetch and the JSON parse succeed,
`NewTokenFetcher` succeeds iff the `privateKeyBase64` field decodes under
standard base64 — PEM validity of the decoded bytes is not checked at
construction; a base64 failure is the credential-decode error, while an
invalid PEM key makes every `generateJwt` call (hence every `Fetch` attempt)
fail with a key-parse error. -/
theorem newTokenFetcher_pem_deferred (env : SecretsEnv) (p : TokenParams)
    (secret : String) (cfg : TokenFetcherCfg)
    (hv : validateTokenParams p = none)
    (hs : env.getSecretValue p.smKey = .ok secret)
    (hj : env.jsonParseCfg secret = .ok cfg) :
    (∀ key : List UInt8, env.b64Decode cfg.privateKeyBase64 = .ok key →
      NewTokenFetcher env p
        = .ok { cfg := { cfg with privateKey := key }
                backoffDefaulted := !p.hasBackoff })
    ∧ (∀ e : Err, env.b64Decode cfg.privateKeyBase64 = .error e →
      NewTokenFetcher env p = .error (.wrap "unable to decode private key" e))
    ∧ (∀ (key : List UInt8) (fenv : FetchEnv) (e : Err) (n : Nat),
        fenv.pemParse key = .error e →
        generateJwt fenv
            { cfg := { cfg with privateKey := key }
              backoffDefaulted := !p.hasBackoff } n
          = .error (.wrap "error parsing private key" e)) := by
  refine ⟨?_, ?_, ?_⟩
  · intro key hb
    simp [NewTokenFetcher, hv, hs, hj, hb]
  · intro e hb
    simp [NewTokenFetcher, hv, hs, hj, hb]
  · intro key fenv e n hp
    simp [generateJwt, hp]

/-- C1 amended witness: the amended theorem at the concrete bad-PEM
credential source. -/
theorem newTokenFetcher_pem_deferred_witness :
    NewTokenFetcher secretsEnvBadPem paramsOK = .ok fetcherBadPem :=
  (newTokenFetcher_pem_deferred secretsEnvBadPem paramsOK "secret-json"
      { baseUrl := "baseUrl", hostname := "host", username := "user"
        clientId := "client", clientSecret := "secret"
        privateKeyBase64 := "bm90", privateKey := [] }
      rfl rfl rfl).1 [110, 111, 116] rfl

/-- C4: for any token handed to `introspect` (with a parsable base URL), a
2xx introspection response makes the step return exactly that token with no
error; a status outside 200–299, or a transport error, makes it return the
zero-value string alongside a non-nil error (the `err` outcome). -/
theorem introspect_spec (genv : GoEnv) (env : FetchEnv) (tf : TokenFetcher)
    (n : Nat) (token : String)
    (hurl : genv.urlOK (tf.cfg.baseUrl ++ "/services/oauth2/introspect") = true) :
    (∀ resp : Response (JsonDoc TokenResponse),
      env.httpDo n (introspectRequest tf token) = .ok resp →
      ((200 ≤ resp.statusCode ∧ resp.statusCode ≤ 299) →
        introspect genv env tf n token = .ok token)
      ∧ ((resp.statusCode < 200 ∨ 299 < resp.statusCode) →
        introspect genv env tf n token
          = .err (.msg "failed Call to introspect token")))
    ∧ (∀ e : Err, env.httpDo n (introspectRequest tf token) = .error e →
        introspect genv env tf n token = .err e) := by
  constructor
  · intro resp hdo
    constructor
    · intro hs
      simp only [introspect, hurl, hdo]
      rw [if_neg (by simp : ¬(true = false))]
      rw [if_neg (by omega : ¬(resp.statusCode < 200 ∨ resp.statusCode > 299))]
    · intro hs
      simp only [introspect, hurl, hdo]
      rw [if_neg (by simp : ¬(true = false))]
      rw [if_pos (by omega : resp.statusCode < 200 ∨ resp.statusCode > 299)]
  · intro e hdo
    simp [introspect, hurl, hdo]

/-- C4 witness: a 204 introspection response returns the token unchanged. -/
theorem introspect_spec_witness :
    introspect goEnvOK fetchEnvIntrospect204 fetcherBadPem 0 "tok-123"
      = .ok "tok-123" :=
  ((introspect_spec goEnvOK fetchEnvIntrospect204 fetcherBadPem 0 "tok-123"
      rfl).1 { statusCode := 204, body := .null } rfl).1 (by decide)

/-- C9: a token-endpoint response that succeeds at the transport level with
status 200 and the JSON body `null` makes `obtainToken` panic with a nil
pointer dereference (the unmarshalled `*tokenResponse` is nil and its `Token`
field is read without a nil check or a status check) instead of returning an
error — and the panic escapes `Fetch`'s retry loop. -/
theorem obtainToken_nil_panic :
    fetchEnvNullBody.httpDo 0 (obtainTokenRequest fetcherBadPem "assertion")
      = .ok { statusCode := 200, body := .null }
    ∧ obtainToken goEnvOK fetchEnvNullBody fetcherBadPem 0 "assertion"
      = .panicked "runtime error: invalid memory address or nil pointer dereference"
    ∧ Fetch { cancelled := false } goEnvOK fetchEnvNullBody fetcherBadPem [1, 2, 3]
      = .panicked "runtime error: invalid memory address or nil pointer dereference" := by
  decide

/-- C8: `Fetch` never consults the context it is given — for any two
contexts, cancelled or not, the runs are identical, so cancelling the
caller's context neither interrupts the retry loop nor skips its backoff
sleeps. -/
theorem fetch_ignores_ctx (c₁ c₂ : Ctx) (genv : GoEnv) (env : FetchEnv)
    (tf : TokenFetcher) (delays : List Int) :
    Fetch c₁ genv env tf delays = Fetch c₂ genv env tf delays := rfl

/-- C5: `Fetch` retries the sign–exchange–introspect unit as a whole: the
claims signed on attempt `n` carry that attempt's fresh `uuid.New` value as
JTI and an expiry of that attempt's `time.Now` plus one hour (so distinct
attempts with distinct UUIDs sign distinct assertions); a key-parse failure
surfaces as an ordinary error of the attempt; and any failed attempt — local
or network — is handed to the backoff policy, which sleeps and reruns the
whole unit as the next attempt. -/
theorem fetch_retries_unit (genv : GoEnv) (env : FetchEnv) (tf : TokenFetcher)
    (n m : Nat) (e : Err) (d : Int) (rest : List Int) (ctx : Ctx)
    (hu : env.uuid n ≠ env.uuid m) :
    (jwtClaimsAt env tf n).jti = env.uuid n
    ∧ (jwtClaimsAt env tf n).expiresAt = env.now n + Hour
    ∧ (jwtClaimsAt env tf n).jti ≠ (jwtClaimsAt env tf m).jti
    ∧ (env.pemParse tf.cfg.privateKey = .error e →
        fetchAttempt genv env tf n = .err (.wrap "error parsing private key" e))
    ∧ (∀ e' : Err, fetchAttempt genv env tf n = .err e' →
        retryWithData (fetchAttempt genv env tf) (d :: rest) n
          = retryWithData (fetchAttempt genv env tf) rest (n + 1))
    ∧ (∀ e' : Err, fetchAttempt genv env tf 0 = .err e' →
        Fetch ctx genv env tf (d :: rest)
          = retryWithData (fetchAttempt genv env tf) rest 1) := by
  refine ⟨rfl, ?_, hu, ?_, ?_, ?_⟩
  · simp [jwtClaimsAt, tokenTtl]
  · intro hp
    simp [fetchAttempt, generateJwt, hp]
  · intro e' hfail
    rw [retryWithData, hfail]
  · intro e' hfail
    rw [Fetch, retryWithData, hfail]

/-- C5 witness: with a rejected key and distinct per-attempt UUIDs, attempt 0
fails locally and the loop moves on to attempt 1. -/
theorem fetch_retries_unit_witness :
    (jwtClaimsAt fetchEnvBadPem fetcherBadPem 0).jti
      ≠ (jwtClaimsAt fetchEnvBadPem fetcherBadPem 1).jti
    ∧ retryWithData (fetchAttempt goEnvOK fetchEnvBadPem fetcherBadPem) [1] 0
      = retryWithData (fetchAttempt goEnvOK fetchEnvBadPem fetcherBadPem) [] 1 :=
  ⟨(fetch_retries_unit goEnvOK fetchEnvBadPem fetcherBadPem 0 1 (.msg "invalid key")
      1 [] { cancelled := false } (by decide)).2.2.1,
   (fetch_retries_unit goEnvOK fetchEnvBadPem fetcherBadPem 0 1 (.msg "invalid key")
      1 [] { cancelled := false } (by decide)).2.2.2.2.1
     (.wrap "error parsing private key" (.msg "invalid key")) (by decide)⟩

/-- C7: the refresh interval `NewTokenCache` wires into the keyless cache is
exactly `58 * time.Minute`, the assertion expiry `generateJwt` signs is
exactly one hour past the signing-time `time.Now`, and 58 minutes is strictly
below the 60-minute token lifetime. -/
theorem cache_ttl_spec (env : SecretsEnv) (p : TokenParams) (tc : TokenCache)
    (fenv : FetchEnv) (tf : TokenFetcher) (n : Nat)
    (hc : NewTokenCache env p = .ok tc) :
    tc.refreshInterval = 58 * Minute
    ∧ tokenCacheTtl = 58 * Minute
    ∧ tokenTtl = 1 * Hour
    ∧ (jwtClaimsAt fenv tf n).expiresAt = fenv.now n + tokenTtl
    ∧ tokenCacheTtl < 60 * Minute := by
  refine ⟨?_, rfl, rfl, rfl, by decide⟩
  rcases htf : NewTokenFetcher env p with e | tf'
  · rw [NewTokenCache, htf] at hc
    exact absurd hc (by simp)
  · rw [NewTokenCache, htf] at hc
    cases hc
    rfl

/-- C7 witness: the theorem at a concrete successful construction. -/
theorem cache_ttl_spec_witness :
    (TokenCache.mk tokenCacheTtl fetcherBadPem).refreshInterval = 58 * Minute :=
  (cache_ttl_spec secretsEnvBadPem paramsOK
      (TokenCache.mk tokenCacheTtl fetcherBadPem) fetchEnvBadPem fetcherBadPem 0
      (by decide)).1

end Salesforce
